import Mathlib

/-!
Verification of the BabelApp real-time message fan-out and translation
pipeline.  The definitions below are a shallow embedding of the backend
source: the socket `send-message` handler (index server file), the
translation service (`services/translation`), and the database helpers
(`config/database`).  External effectful calls (Gemini provider, database
queries, the BabelBot service) are modelled as oracle functions returning
`Except Unit` results; `async`/`await` sequencing is modelled as ordinary
sequential composition, and the handler is modelled as a function producing
the ordered list of observable events (external calls and broadcasts).
-/

namespace BabelApp

/-! ### JavaScript-style helpers

`jsOrD o d` models `o || d` for an optional string (JS treats the empty
string as falsy); `jsOrS a b` models `a || b` for plain strings; `isBlank s`
models `s.trim().length === 0` (equivalently: every character of `s` is
whitespace). -/

def jsOrD : Option String → String → String
  | some s, d => if s = "" then d else s
  | none, d => d

def jsOrS (a b : String) : String :=
  if a = "" then b else a

def isBlank (s : String) : Bool :=
  s.data.all Char.isWhitespace

/-- Association-list lookup, modelling reading `obj[key]` on a JS object. -/
def lookupKey : List (String × String) → String → Option String
  | [], _ => none
  | p :: rest, k => if p.1 = k then some p.2 else lookupKey rest k

/-- Association-list update, modelling the assignment `obj[key] = value` on a
JS object (updates the existing entry in place, otherwise appends). -/
def setKey : List (String × String) → String → String → List (String × String)
  | [], k, v => [(k, v)]
  | p :: rest, k, v => if p.1 = k then (k, v) :: rest else p :: setKey rest k v

/-- Models `Array.from(new Set(l))`: deduplication keeping the first
occurrence of each element, in order. -/
def jsSetDedup (l : List String) : List String :=
  l.foldl (fun acc x => if x ∈ acc then acc else acc ++ [x]) []

/-- Models `s.startsWith(pre)`, structurally over the character lists. -/
def jsStartsWith (s pre : String) : Bool :=
  pre.data.isPrefixOf s.data

/-- Models `s.split(sep)` (single-character separator), structurally. -/
def splitCharsOn (sep : Char) : List Char → List (List Char)
  | [] => [[]]
  | c :: rest =>
      match splitCharsOn sep rest with
      | [] => if c = sep then [[], []] else [[c]]
      | h :: t => if c = sep then [] :: h :: t else (c :: h) :: t

def jsSplit (s : String) (sep : Char) : List String :=
  (splitCharsOn sep s.data).map (fun l => ⟨l⟩)

/-! ### Language detector (`detectLanguageFromText`, index server file)

The source tests, in order: blank text, a Hebrew character (U+0590–U+05FF),
an Arabic character (U+0600–U+06FF), a Chinese character (U+4E00–U+9FFF), a
Cyrillic character (U+0400–U+04FF), returning the fallback `"en"` otherwise.
The regex `/[֐-׿]/.test(text)` is modelled by `containsRange`:
all four ranges lie in the BMP outside the surrogate block, so testing the
UTF-16 code units is the same as testing the code points. -/

def containsRange (lo hi : Nat) (s : String) : Bool :=
  s.data.any (fun c => decide (lo ≤ c.toNat ∧ c.toNat ≤ hi))

def detectLanguageFromText (text : String) : String :=
  if isBlank text then "en"
  else if containsRange 0x0590 0x05FF text then "he"
  else if containsRange 0x0600 0x06FF text then "ar"
  else if containsRange 0x4E00 0x9FFF text then "zh"
  else if containsRange 0x0400 0x04FF text then "ru"
  else "en"

/-! ### Translation service (`TranslationService.translateMessage`)

The source builds a prompt, then tries each model name of
`modelNamesToTry` in order; a provider failure on the last model makes the
function return the original content (inner `catch`), so the function
itself never rejects.  The provider is an oracle from (model name, prompt)
to a result. -/

def langName (code : String) : String :=
  if code = "en" then "English"
  else if code = "he" then "Hebrew"
  else if code = "iw" then "Hebrew"
  else if code = "es" then "Spanish"
  else if code = "fr" then "French"
  else if code = "de" then "German"
  else if code = "ar" then "Arabic"
  else if code = "ru" then "Russian"
  else if code = "zh" then "Chinese"
  else code

def modelNamesToTry : List String :=
  ["gemini-2.5-flash", "gemini-2.5-flash-latest", "gemini-2.0-flash",
   "gemini-2.0-flash-exp", "gemini-1.5-flash", "gemini-1.5-flash-latest",
   "gemini-1.5-pro", "gemini-1.0-pro-002", "gemini-1.0-pro"]

def translationPrompt (originalContent originalLanguage targetLanguage : String) : String :=
  "Translate the following message from " ++ langName originalLanguage ++
  " to " ++ langName targetLanguage ++
  ".\nOnly return the translated text, nothing else. Keep the same tone and style.\nIf there are names, keep them as is.\n\nMessage: \"" ++
  originalContent ++ "\"\n\nTranslation:"

/-- The model loop of `translateMessage`: on a provider error for the last
model the original content is returned (`return originalContent`); on any
earlier error the next model is tried.  A success returns the provider
response trimmed (`response.text().trim()`). -/
def tryModels (provider : String → String → Except Unit String)
    (prompt originalContent : String) : List String → Except Unit String
  | [] => .ok originalContent
  | m :: rest =>
      match provider m prompt with
      | .ok response => .ok response.trim
      | .error _ =>
          if rest.isEmpty then .ok originalContent
          else tryModels provider prompt originalContent rest

def translateMessage (provider : String → String → Except Unit String)
    (messageId targetLanguage originalContent originalLanguage : String) :
    Except Unit String :=
  let _ := messageId
  tryModels provider (translationPrompt originalContent originalLanguage targetLanguage)
    originalContent modelNamesToTry

/-! ### Target-language cache (`getTargetLanguages`, index server file)

Module state `cachedTargetLanguages` / `lastLanguageCacheUpdate` becomes an
explicit state record; the `getActiveUsersLanguages()` query becomes an
`Except` argument (its failure is caught and logged in the source). -/

structure LangCacheState where
  cachedTargetLanguages : List String
  lastLanguageCacheUpdate : Nat
deriving Repr, DecidableEq

def LANGUAGE_CACHE_TTL : Nat := 5 * 60 * 1000

/-- Initial module state: `let cachedTargetLanguages = ['en']`. -/
def initialLangCacheState : LangCacheState := ⟨["en"], 0⟩

def getTargetLanguages (st : LangCacheState) (now : Nat)
    (queryLanguages : Except Unit (List String)) : List String × LangCacheState :=
  if now - st.lastLanguageCacheUpdate > LANGUAGE_CACHE_TTL then
    match queryLanguages with
    | .ok languages =>
        let uniqueLanguages := jsSetDedup languages
        let uniqueLanguages :=
          if "en" ∈ uniqueLanguages then uniqueLanguages else uniqueLanguages ++ ["en"]
        (uniqueLanguages, ⟨uniqueLanguages, now⟩)
    | .error _ => (st.cachedTargetLanguages, st)
  else (st.cachedTargetLanguages, st)

/-! ### Private chat creation (`createOrGetPrivateChat`, `config/database`)

`[user1Id, user2Id].sort()` compares strings; we model the comparison with
the lexicographic order on Lean strings (identical to the JS code-unit
order on BMP strings such as user ids).  The database is modelled as the
set of existing chat ids plus the participant rows; the result reports the
chat id, the new database, and whether a row was inserted. -/

structure ChatDB where
  chats : List String
  participants : List (String × String)
deriving Repr, DecidableEq

def createOrGetPrivateChat (db : ChatDB) (user1Id user2Id : String) :
    String × ChatDB × Bool :=
  let a := if user1Id ≤ user2Id then user1Id else user2Id
  let b := if user1Id ≤ user2Id then user2Id else user1Id
  let chatId := "private_" ++ a ++ "_" ++ b
  if chatId ∈ db.chats then (chatId, db, false)
  else (chatId, ⟨db.chats ++ [chatId],
                 db.participants ++ [(chatId, user1Id), (chatId, user2Id)]⟩, true)

/-! ### The `send-message` handler (Fan-out Engine, index server file)

The handler is modelled as a function from an inbound payload, the socket
query parameters, the locally generated ids/timestamps, and the external
oracles, to the ordered list of observable events.  `await` points become
sequential composition; `Promise.all` over independently-caught promises
becomes a `map` collecting results in array order. -/

structure InboundData where
  chatId : String
  content : String
  transcription : Option String
  caption : Option String
  contentType : Option String
deriving Repr, DecidableEq

/-- A row returned by `createMessage` (database-generated id and timestamp). -/
structure SavedRow where
  id : String
  created_at : String
deriving Repr, DecidableEq

structure OutboundMessage where
  chatId : String
  content : String
  id : String
  createdAt : String
  senderId : String
  senderName : String
  originalLanguage : String
  translations : List (String × String)
  captionTranslations : Option (List (String × String)) := none
deriving Repr, DecidableEq

/-- External collaborators of the Fan-out Engine: the Gemini provider
(model name, prompt), `createOrGetPrivateChat` (success/failure only),
`createMessage` (chat id, sender id, content, content type, original
language, timestamp), `createMessageTranslation` (message id, language,
text), and the BabelBot service (message, user id, chat id, language). -/
structure Oracles where
  provider : String → String → Except Unit String
  ensurePrivateRoom : String → String → Except Unit Unit
  saveMessage : String → String → String → String → String → String → Except Unit SavedRow
  saveTranslation : String → String → String → Except Unit Unit
  bot : String → String → String → String → Except Unit String

inductive Event where
  | translateResolved (lang text : String)
  | captionResolved (lang text : String)
  | ensureRoomCall (u1 u2 : String) (ok : Bool)
  | saveMessageCall (chatId senderId content : String) (ok : Bool)
  | saveTranslationCall (msgId lang text : String)
  | botCall (text userId chatId lang : String)
  | broadcastRoom (room : String) (msg : OutboundMessage)
  | broadcastGlobal (msg : OutboundMessage)
deriving Repr, DecidableEq

def isBroadcastEvent : Event → Bool
  | .broadcastRoom _ _ => true
  | .broadcastGlobal _ => true
  | _ => false

/-- `data.transcription && data.transcription.trim() !== '' ?
data.transcription : data.content` — the effective text of a message. -/
def effectiveText (data : InboundData) : String :=
  match data.transcription with
  | some t => if isBlank t then data.content else t
  | none => data.content

/-! #### Non-bot path (translation fan-out) -/

/-- `targetLanguages.filter(lang => lang !== senderLanguage)`. -/
def nonBotTargets (tl : List String) (sl : String) : List String :=
  tl.filter (fun lang => lang ≠ sl)

/-- The resolved per-language results of the message translation
`Promise.all`: each promise independently catches a failure and falls back
to the original text. -/
def nonBotTransResults (o : Oracles) (tl : List String) (mid sl eff : String) :
    List (String × String) :=
  (nonBotTargets tl sl).map (fun targetLang =>
    match translateMessage o.provider mid targetLang eff sl with
    | .ok t => (targetLang, t)
    | .error _ => (targetLang, eff))

/-- Same for the caption translation `Promise.all` (message id suffixed
with `-caption`). -/
def nonBotCapResults (o : Oracles) (tl : List String) (mid sl cap : String) :
    List (String × String) :=
  (nonBotTargets tl sl).map (fun targetLang =>
    match translateMessage o.provider (mid ++ "-caption") targetLang cap sl with
    | .ok t => (targetLang, t)
    | .error _ => (targetLang, cap))

/-- `translations[senderLanguage] = original` followed by one assignment
per resolved result, in array order. -/
def assembleTranslations (results : List (String × String)) (sl original : String) :
    List (String × String) :=
  results.foldl (fun m p => setKey m p.1 p.2) (setKey [] sl original)

def nonBotTransEvents (o : Oracles) (tl : List String) (data : InboundData)
    (ul : Option String) (mid : String) : List Event :=
  (nonBotTransResults o tl mid (jsOrD ul "en") (effectiveText data)).map
    (fun p => Event.translateResolved p.1 p.2)

def nonBotCapEvents (o : Oracles) (tl : List String) (data : InboundData)
    (ul : Option String) (mid : String) : List Event :=
  match data.caption with
  | some cap =>
      if isBlank cap then []
      else (nonBotCapResults o tl mid (jsOrD ul "en") cap).map
        (fun p => Event.captionResolved p.1 p.2)
  | none => []

/-- The fully assembled `messageData` just before the persistence block:
locally generated id/timestamp, sender descriptor from the socket query,
translations (and caption translations when a non-blank caption is
present). -/
def nonBotAssembled (o : Oracles) (tl : List String) (data : InboundData)
    (uid ul : Option String) (mid ts : String) : OutboundMessage :=
  { chatId := data.chatId, content := data.content, id := mid, createdAt := ts,
    senderId := jsOrD uid "unknown", senderName := jsOrD uid "Unknown User",
    originalLanguage := jsOrD ul "en",
    translations :=
      assembleTranslations
        (nonBotTransResults o tl mid (jsOrD ul "en") (effectiveText data))
        (jsOrD ul "en") (effectiveText data),
    captionTranslations :=
      match data.caption with
      | some cap =>
          if isBlank cap then none
          else some (assembleTranslations (nonBotCapResults o tl mid (jsOrD ul "en") cap)
                      (jsOrD ul "en") cap)
      | none => none }

def exOk {ε α : Type} : Except ε α → Bool
  | .ok _ => true
  | .error _ => false

/-- The `createMessage` + translation-row part of the persistence `try`
block: on a failed message save the `catch` only logs, leaving the locally
generated id on the message; on success the id and timestamp are replaced
by the database row and every non-origin translation row is written
(`Promise.all`, all calls issued; a failure rejects before the caption rows
are written). -/
def saveStep (o : Oracles) (data : InboundData) (msg : OutboundMessage)
    (sl ts : String) : List Event × OutboundMessage :=
  match o.saveMessage data.chatId msg.senderId (effectiveText data)
      (jsOrD data.contentType "text") sl ts with
  | .error _ =>
      ([Event.saveMessageCall data.chatId msg.senderId (effectiveText data) false], msg)
  | .ok saved =>
      let msg' := { msg with id := saved.id, createdAt := saved.created_at }
      let transRows := msg'.translations.filter (fun p => p.1 ≠ sl)
      let transSaveEvents :=
        transRows.map (fun p => Event.saveTranslationCall saved.id p.1 p.2)
      let anyFail := transRows.any (fun p => !(exOk (o.saveTranslation saved.id p.1 p.2)))
      let capSaveEvents :=
        if anyFail then []
        else
          match msg'.captionTranslations with
          | some capMap =>
              (capMap.filter (fun p => p.1 ≠ sl)).map
                (fun p => Event.saveTranslationCall (saved.id ++ "-caption") p.1 p.2)
          | none => []
      (Event.saveMessageCall data.chatId msg.senderId (effectiveText data) true
         :: (transSaveEvents ++ capSaveEvents), msg')

/-- Second element of `String.splitOn`-style private chat ids:
`private_user1_user2` → part 1 is `user1`, part 2 is `user2`. -/
def partAt (s : String) (i : Nat) : String :=
  (jsSplit s '_').getD i ""

/-- The whole persistence `try`/`catch` block: for a `private_`-prefixed
chat id the room is materialized first and a failure (or a malformed id)
aborts the rest of the block via the `catch`, which only logs; the message
and translation rows follow. -/
def nonBotPersist (o : Oracles) (data : InboundData) (msg : OutboundMessage)
    (sl ts : String) : List Event × OutboundMessage :=
  if jsStartsWith data.chatId "private_" then
    if 3 ≤ (jsSplit data.chatId '_').length then
      match o.ensurePrivateRoom (partAt data.chatId 1) (partAt data.chatId 2) with
      | .error _ => ([Event.ensureRoomCall (partAt data.chatId 1) (partAt data.chatId 2) false], msg)
      | .ok _ =>
          let r := saveStep o data msg sl ts
          (Event.ensureRoomCall (partAt data.chatId 1) (partAt data.chatId 2) true :: r.1, r.2)
    else ([], msg)
  else saveStep o data msg sl ts

def nonBotMsgFinal (o : Oracles) (tl : List String) (data : InboundData)
    (uid ul : Option String) (mid ts : String) : OutboundMessage :=
  (nonBotPersist o data (nonBotAssembled o tl data uid ul mid ts) (jsOrD ul "en") ts).2

/-- Every event of the non-bot path that precedes the two broadcasts:
the translation resolutions, the caption resolutions, then the persistence
calls. -/
def nonBotPre (o : Oracles) (tl : List String) (data : InboundData)
    (uid ul : Option String) (mid ts : String) : List Event :=
  nonBotTransEvents o tl data ul mid ++ nonBotCapEvents o tl data ul mid ++
    (nonBotPersist o data (nonBotAssembled o tl data uid ul mid ts) (jsOrD ul "en") ts).1

/-- The non-bot branch of the `send-message` handler: translations, caption
translations, persistence, then `io.to(chatId).emit('new-message', ...)`
followed by `io.emit('chat-message-received', ...)`. -/
def handleNonBot (o : Oracles) (tl : List String) (data : InboundData)
    (uid ul : Option String) (mid ts : String) : List Event × OutboundMessage :=
  (nonBotPre o tl data uid ul mid ts ++
     [Event.broadcastRoom data.chatId (nonBotMsgFinal o tl data uid ul mid ts),
      Event.broadcastGlobal (nonBotMsgFinal o tl data uid ul mid ts)],
   nonBotMsgFinal o tl data uid ul mid ts)

/-! #### BabelBot path -/

def apostrophe : String := String.singleton (Char.ofNat 39)

/-- The fixed apology broadcast when the BabelBot service call fails. -/
def apologyText : String :=
  "Sorry, I" ++ apostrophe ++
    "m having trouble responding right now. Please try again later."

/-- `detectedLanguage !== 'en' || senderLanguage === 'en' ? detectedLanguage
: senderLanguage`. -/
def botLanguage (detected sl : String) : String :=
  if detected ≠ "en" ∨ sl = "en" then detected else sl

def botUserLang (data : InboundData) (ul : Option String) : String :=
  botLanguage (detectLanguageFromText (effectiveText data)) (jsOrD ul "en")

/-- The user message object built in the BabelBot branch (sender descriptor
uses the raw user id for both fields; translations stay empty). -/
def botUserMsg (data : InboundData) (uid ul : Option String) (mid ts : String) :
    OutboundMessage :=
  { chatId := data.chatId, content := data.content, id := mid, createdAt := ts,
    senderId := jsOrD uid "unknown", senderName := jsOrD uid "unknown",
    originalLanguage := botUserLang data ul, translations := [],
    captionTranslations := none }

def botUserSave (o : Oracles) (data : InboundData) (uid ul : Option String)
    (ts : String) : Except Unit SavedRow :=
  o.saveMessage data.chatId (jsOrD uid "unknown") (effectiveText data)
    (jsOrD data.contentType "text") (botUserLang data ul) ts

/-- Saving and broadcasting the user's own message in the BabelBot branch:
the broadcasts sit inside the `try`, so a failed save skips them. -/
def botUserPhase (o : Oracles) (data : InboundData) (uid ul : Option String)
    (mid ts : String) : List Event :=
  match botUserSave o data uid ul ts with
  | .ok saved =>
      [Event.saveMessageCall data.chatId (jsOrD uid "unknown") (effectiveText data) true,
       Event.broadcastRoom data.chatId
         { botUserMsg data uid ul mid ts with id := saved.id, createdAt := saved.created_at },
       Event.broadcastGlobal
         { botUserMsg data uid ul mid ts with id := saved.id, createdAt := saved.created_at }]
  | .error _ =>
      [Event.saveMessageCall data.chatId (jsOrD uid "unknown") (effectiveText data) false]

/-- `data.content || data.transcription || ''` — the text sent to the bot. -/
def botText (data : InboundData) : String :=
  jsOrS data.content (data.transcription.getD "")

def botReplyMsg (data : InboundData) (reply bmid bts lang : String) : OutboundMessage :=
  { chatId := data.chatId, content := reply, id := bmid, createdAt := bts,
    senderId := "babelbot", senderName := "Babel Bot",
    originalLanguage := lang, translations := [], captionTranslations := none }

def botErrorMsg (data : InboundData) (emid ets sl : String) : OutboundMessage :=
  { chatId := data.chatId, content := apologyText, id := emid, createdAt := ets,
    senderId := "babelbot", senderName := "Babel Bot",
    originalLanguage := sl, translations := [], captionTranslations := none }

/-- The bot turn: on success the reply is saved (note: with the declared
sender language, not the detected one) and broadcast even when its save
fails; on a bot-service failure a fixed apology message is broadcast
instead. -/
def botReplyPhase (o : Oracles) (data : InboundData) (uid ul : Option String)
    (bmid bts emid ets : String) : List Event :=
  match o.bot (botText data) (jsOrD uid "unknown") data.chatId (botUserLang data ul) with
  | .ok reply =>
      match o.saveMessage data.chatId "babelbot" reply "text" (jsOrD ul "en") bts with
      | .ok saved =>
          [Event.saveMessageCall data.chatId "babelbot" reply true,
           Event.broadcastRoom data.chatId
             { botReplyMsg data reply bmid bts (botUserLang data ul) with
                 id := saved.id, createdAt := saved.created_at },
           Event.broadcastGlobal
             { botReplyMsg data reply bmid bts (botUserLang data ul) with
                 id := saved.id, createdAt := saved.created_at }]
      | .error _ =>
          [Event.saveMessageCall data.chatId "babelbot" reply false,
           Event.broadcastRoom data.chatId (botReplyMsg data reply bmid bts (botUserLang data ul)),
           Event.broadcastGlobal (botReplyMsg data reply bmid bts (botUserLang data ul))]
  | .error _ =>
      [Event.broadcastRoom data.chatId (botErrorMsg data emid ets (jsOrD ul "en")),
       Event.broadcastGlobal (botErrorMsg data emid ets (jsOrD ul "en"))]

/-- The BabelBot branch of the handler: user-message phase, then the bot
service call, then the reply (or apology) phase.  No translation is ever
requested on this path. -/
def handleBot (o : Oracles) (data : InboundData) (uid ul : Option String)
    (mid ts bmid bts emid ets : String) : List Event :=
  botUserPhase o data uid ul mid ts ++
    Event.botCall (botText data) (jsOrD uid "unknown") data.chatId (botUserLang data ul)
      :: botReplyPhase o data uid ul bmid bts emid ets

/-- Top of the `send-message` handler: the `babelbot-` namespace test
dispatches between the BabelBot branch and the translation fan-out. -/
def sendMessageHandler (o : Oracles) (tl : List String) (data : InboundData)
    (uid ul : Option String) (mid ts bmid bts emid ets : String) : List Event :=
  if jsStartsWith data.chatId "babelbot-" then
    handleBot o data uid ul mid ts bmid bts emid ets
  else (handleNonBot o tl data uid ul mid ts).1

/-! #### Observation helpers over event traces -/

def roomBroadcastSenders (l : List Event) : List String :=
  l.filterMap (fun e => match e with
    | .broadcastRoom _ m => some m.senderId
    | _ => none)

def globalBroadcastSenders (l : List Event) : List String :=
  l.filterMap (fun e => match e with
    | .broadcastGlobal m => some m.senderId
    | _ => none)

def roomBroadcastContents (l : List Event) : List String :=
  l.filterMap (fun e => match e with
    | .broadcastRoom _ m => some m.content
    | _ => none)

/-- The translation-related events of a trace (empty on the bot path). -/
def translationEventsOf (l : List Event) : List Event :=
  l.filter (fun e => match e with
    | .translateResolved _ _ => true
    | .captionResolved _ _ => true
    | _ => false)

def broadcastWithEmptyTranslations : Event → Bool
  | .broadcastRoom _ m => m.translations.isEmpty
  | .broadcastGlobal m => m.translations.isEmpty
  | _ => false

/-! ### Lemmas about the association-list operations -/

theorem lookupKey_setKey_self (m : List (String × String)) (k v : String) :
    lookupKey (setKey m k v) k = some v := by
  induction m with
  | nil => simp [setKey, lookupKey]
  | cons p rest ih =>
      by_cases h : p.1 = k
      · simp [setKey, h, lookupKey]
      · simp [setKey, h, lookupKey, ih]

theorem lookupKey_setKey_ne (m : List (String × String)) (k v k' : String)
    (h : k' ≠ k) : lookupKey (setKey m k v) k' = lookupKey m k' := by
  induction m with
  | nil => simp [setKey, lookupKey, h, Ne.symm h]
  | cons p rest ih =>
      by_cases hp : p.1 = k
      · subst hp
        simp [setKey, lookupKey, Ne.symm h]
      · by_cases hp' : p.1 = k'
        · simp [setKey, hp, lookupKey, hp', h]
        · simp [setKey, hp, lookupKey, hp', ih]

theorem lookupKey_foldl_ne (l : List (String × String)) (init : List (String × String))
    (k : String) (h : ∀ p ∈ l, p.1 ≠ k) :
    lookupKey (l.foldl (fun m p => setKey m p.1 p.2) init) k = lookupKey init k := by
  induction l generalizing init with
  | nil => rfl
  | cons p rest ih =>
      have hp : p.1 ≠ k := h p (List.mem_cons_self p rest)
      have hrest : ∀ q ∈ rest, q.1 ≠ k := fun q hq => h q (List.mem_cons_of_mem p hq)
      simp only [List.foldl_cons]
      rw [ih (setKey init p.1 p.2) hrest, lookupKey_setKey_ne _ _ _ _ (Ne.symm hp)]

theorem lookupKey_foldl_mem (l : List (String × String)) (init : List (String × String))
    (k v : String) (h1 : ∀ p ∈ l, p.1 = k → p.2 = v)
    (h2 : k ∈ l.map Prod.fst ∨ lookupKey init k = some v) :
    lookupKey (l.foldl (fun m p => setKey m p.1 p.2) init) k = some v := by
  induction l generalizing init with
  | nil =>
      rcases h2 with h2 | h2
      · simp at h2
      · simpa using h2
  | cons p rest ih =>
      have h1rest : ∀ q ∈ rest, q.1 = k → q.2 = v :=
        fun q hq => h1 q (List.mem_cons_of_mem p hq)
      simp only [List.foldl_cons]
      by_cases hp : p.1 = k
      · have hv : p.2 = v := h1 p (List.mem_cons_self p rest) hp
        refine ih (setKey init p.1 p.2) h1rest (Or.inr ?_)
        rw [hp, hv, lookupKey_setKey_self]
      · rcases h2 with h2 | h2
        · rcases List.mem_map.mp h2 with ⟨q, hq, hqk⟩
          rcases List.mem_cons.mp hq with rfl | hq'
          · exact absurd hqk hp
          · exact ih (setKey init p.1 p.2) h1rest
              (Or.inl (List.mem_map.mpr ⟨q, hq', hqk⟩))
        · refine ih (setKey init p.1 p.2) h1rest (Or.inr ?_)
          rw [lookupKey_setKey_ne _ _ _ _ (fun he => hp he.symm), h2]

theorem lookupKey_foldl_isSome (l : List (String × String)) (init : List (String × String))
    (k : String) (h : k ∈ l.map Prod.fst ∨ (lookupKey init k).isSome = true) :
    (lookupKey (l.foldl (fun m p => setKey m p.1 p.2) init) k).isSome = true := by
  induction l generalizing init with
  | nil =>
      rcases h with h | h
      · simp at h
      · simpa using h
  | cons p rest ih =>
      simp only [List.foldl_cons]
      by_cases hp : p.1 = k
      · refine ih (setKey init p.1 p.2) (Or.inr ?_)
        rw [hp, lookupKey_setKey_self]
        rfl
      · rcases h with h | h
        · rcases List.mem_map.mp h with ⟨q, hq, hqk⟩
          rcases List.mem_cons.mp hq with rfl | hq'
          · exact absurd hqk hp
          · exact ih (setKey init p.1 p.2) (Or.inl (List.mem_map.mpr ⟨q, hq', hqk⟩))
        · refine ih (setKey init p.1 p.2) (Or.inr ?_)
          rw [lookupKey_setKey_ne _ _ _ _ (fun he => hp he.symm)]
          exact h

theorem assembleTranslations_lookup_origin (results : List (String × String))
    (sl orig : String) (h : ∀ p ∈ results, p.1 ≠ sl) :
    lookupKey (assembleTranslations results sl orig) sl = some orig := by
  unfold assembleTranslations
  rw [lookupKey_foldl_ne _ _ _ h, lookupKey_setKey_self]

theorem assembleTranslations_lookup_target (results : List (String × String))
    (sl orig lang v : String) (hmem : lang ∈ results.map Prod.fst)
    (hval : ∀ p ∈ results, p.1 = lang → p.2 = v) :
    lookupKey (assembleTranslations results sl orig) lang = some v :=
  lookupKey_foldl_mem results _ lang v hval (Or.inl hmem)

theorem assembleTranslations_lookup_isSome (results : List (String × String))
    (sl orig lang : String) (h : lang ∈ results.map Prod.fst ∨ lang = sl) :
    (lookupKey (assembleTranslations results sl orig) lang).isSome = true := by
  unfold assembleTranslations
  rcases h with h | rfl
  · exact lookupKey_foldl_isSome _ _ _ (Or.inl h)
  · refine lookupKey_foldl_isSome _ _ _ (Or.inr ?_)
    rw [lookupKey_setKey_self]
    rfl

/-! ### Lemmas about the translation adapter -/

theorem tryModels_all_fail (provider : String → String → Except Unit String)
    (prompt orig : String) (l : List String)
    (h : ∀ m ∈ l, provider m prompt = .error ()) :
    tryModels provider prompt orig l = .ok orig := by
  induction l with
  | nil => rfl
  | cons m rest ih =>
      have hm := h m (List.mem_cons_self m rest)
      have hrest : ∀ m' ∈ rest, provider m' prompt = .error () :=
        fun m' hm' => h m' (List.mem_cons_of_mem m hm')
      unfold tryModels
      rw [hm]
      by_cases he : rest.isEmpty
      · simp [he]
      · simp [he, ih hrest]

theorem tryModels_never_errors (provider : String → String → Except Unit String)
    (prompt orig : String) (l : List String) :
    ∃ s, tryModels provider prompt orig l = .ok s := by
  induction l with
  | nil => exact ⟨orig, rfl⟩
  | cons m rest ih =>
      unfold tryModels
      cases hp : provider m prompt with
      | ok r => exact ⟨r.trim, rfl⟩
      | error _ =>
          by_cases he : rest.isEmpty
          · exact ⟨orig, by simp [he]⟩
          · rcases ih with ⟨s, hs⟩
            exact ⟨s, by simp [he, hs]⟩

theorem translateMessage_all_fail (provider : String → String → Except Unit String)
    (mid tgt txt src : String)
    (h : ∀ m ∈ modelNamesToTry, provider m (translationPrompt txt src tgt) = .error ()) :
    translateMessage provider mid tgt txt src = .ok txt :=
  tryModels_all_fail provider _ txt modelNamesToTry h

/-! ### Lemmas about the resolved translation results -/

theorem nonBotTransResults_fst (o : Oracles) (tl : List String) (mid sl eff : String) :
    (nonBotTransResults o tl mid sl eff).map Prod.fst = nonBotTargets tl sl := by
  unfold nonBotTransResults
  induction nonBotTargets tl sl with
  | nil => rfl
  | cons a rest ih =>
      simp only [List.map_cons, ih, List.cons.injEq, and_true]
      cases translateMessage o.provider mid a eff sl <;> rfl

theorem nonBotTransResults_key_ne (o : Oracles) (tl : List String) (mid sl eff : String) :
    ∀ p ∈ nonBotTransResults o tl mid sl eff, p.1 ≠ sl := by
  intro p hp
  have hmem : p.1 ∈ (nonBotTransResults o tl mid sl eff).map Prod.fst :=
    List.mem_map_of_mem Prod.fst hp
  rw [nonBotTransResults_fst] at hmem
  unfold nonBotTargets at hmem
  exact of_decide_eq_true (List.mem_filter.mp hmem).2

theorem nonBotTransResults_all_fail (o : Oracles) (tl : List String)
    (mid sl eff lang : String)
    (hfail : ∀ m ∈ modelNamesToTry, o.provider m (translationPrompt eff sl lang) = .error ()) :
    ∀ p ∈ nonBotTransResults o tl mid sl eff, p.1 = lang → p.2 = eff := by
  intro p hp hk
  unfold nonBotTransResults at hp
  rcases List.mem_map.mp hp with ⟨tgt, _, hpe⟩
  cases h : translateMessage o.provider mid tgt eff sl with
  | ok t =>
      simp only [h] at hpe
      subst hpe
      simp only at hk
      subst hk
      have h2 := translateMessage_all_fail o.provider mid tgt eff sl hfail
      have h3 := h2.symm.trans h
      injection h3 with h4
      exact h4.symm
  | error _ =>
      simp only [h] at hpe
      subst hpe
      rfl

/-! ### Characterization lemmas for the persistence step -/

theorem saveStep_eq_error (o : Oracles) (data : InboundData) (msg : OutboundMessage)
    (sl ts : String) (u : Unit)
    (h : o.saveMessage data.chatId msg.senderId (effectiveText data)
          (jsOrD data.contentType "text") sl ts = .error u) :
    saveStep o data msg sl ts =
      ([Event.saveMessageCall data.chatId msg.senderId (effectiveText data) false], msg) := by
  unfold saveStep
  rw [h]

theorem saveStep_eq_ok (o : Oracles) (data : InboundData) (msg : OutboundMessage)
    (sl ts : String) (saved : SavedRow)
    (h : o.saveMessage data.chatId msg.senderId (effectiveText data)
          (jsOrD data.contentType "text") sl ts = .ok saved) :
    saveStep o data msg sl ts =
      (Event.saveMessageCall data.chatId msg.senderId (effectiveText data) true ::
        ((msg.translations.filter (fun p => p.1 ≠ sl)).map
            (fun p => Event.saveTranslationCall saved.id p.1 p.2) ++
         (if (msg.translations.filter (fun p => p.1 ≠ sl)).any
              (fun p => !(exOk (o.saveTranslation saved.id p.1 p.2))) then []
          else
            match msg.captionTranslations with
            | some capMap =>
                (capMap.filter (fun p => p.1 ≠ sl)).map
                  (fun p => Event.saveTranslationCall (saved.id ++ "-caption") p.1 p.2)
            | none => [])),
       { msg with id := saved.id, createdAt := saved.created_at }) := by
  unfold saveStep
  rw [h]

theorem saveStep_no_broadcast (o : Oracles) (data : InboundData) (msg : OutboundMessage)
    (sl ts : String) : ∀ e ∈ (saveStep o data msg sl ts).1, isBroadcastEvent e = false := by
  intro e he
  cases h : o.saveMessage data.chatId msg.senderId (effectiveText data)
      (jsOrD data.contentType "text") sl ts with
  | error u =>
      rw [saveStep_eq_error o data msg sl ts u h] at he
      simp at he
      subst he
      rfl
  | ok saved =>
      rw [saveStep_eq_ok o data msg sl ts saved h] at he
      simp only [List.mem_cons, List.mem_append] at he
      rcases he with rfl | he
      · rfl
      rcases he with he | he
      · rcases List.mem_map.mp he with ⟨p, _, rfl⟩
        rfl
      · split at he
        · simp at he
        · split at he
          · rcases List.mem_map.mp he with ⟨p, _, rfl⟩
            rfl
          · simp at he

theorem saveStep_snd (o : Oracles) (data : InboundData) (msg : OutboundMessage)
    (sl ts : String) :
    ∃ i c, (saveStep o data msg sl ts).2 = { msg with id := i, createdAt := c } := by
  cases h : o.saveMessage data.chatId msg.senderId (effectiveText data)
      (jsOrD data.contentType "text") sl ts with
  | error u =>
      rw [saveStep_eq_error o data msg sl ts u h]
      exact ⟨msg.id, msg.createdAt, rfl⟩
  | ok saved =>
      rw [saveStep_eq_ok o data msg sl ts saved h]
      exact ⟨saved.id, saved.created_at, rfl⟩

theorem nonBotPersist_eq_roomfail (o : Oracles) (data : InboundData) (msg : OutboundMessage)
    (sl ts : String) (u : Unit)
    (h1 : jsStartsWith data.chatId "private_" = true)
    (h2 : 3 ≤ (jsSplit data.chatId '_').length)
    (h3 : o.ensurePrivateRoom (partAt data.chatId 1) (partAt data.chatId 2) = .error u) :
    nonBotPersist o data msg sl ts =
      ([Event.ensureRoomCall (partAt data.chatId 1) (partAt data.chatId 2) false], msg) := by
  unfold nonBotPersist
  simp [h1, h2, h3]

theorem nonBotPersist_eq_roomok (o : Oracles) (data : InboundData) (msg : OutboundMessage)
    (sl ts : String) (u : Unit)
    (h1 : jsStartsWith data.chatId "private_" = true)
    (h2 : 3 ≤ (jsSplit data.chatId '_').length)
    (h3 : o.ensurePrivateRoom (partAt data.chatId 1) (partAt data.chatId 2) = .ok u) :
    nonBotPersist o data msg sl ts =
      (Event.ensureRoomCall (partAt data.chatId 1) (partAt data.chatId 2) true
         :: (saveStep o data msg sl ts).1,
       (saveStep o data msg sl ts).2) := by
  unfold nonBotPersist
  simp [h1, h2, h3]

theorem nonBotPersist_eq_badformat (o : Oracles) (data : InboundData) (msg : OutboundMessage)
    (sl ts : String)
    (h1 : jsStartsWith data.chatId "private_" = true)
    (h2 : ¬ 3 ≤ (jsSplit data.chatId '_').length) :
    nonBotPersist o data msg sl ts = ([], msg) := by
  unfold nonBotPersist
  simp [h1, h2]

theorem nonBotPersist_eq_nonprivate (o : Oracles) (data : InboundData) (msg : OutboundMessage)
    (sl ts : String) (h1 : jsStartsWith data.chatId "private_" = false) :
    nonBotPersist o data msg sl ts = saveStep o data msg sl ts := by
  unfold nonBotPersist
  simp [h1]

theorem nonBotPersist_no_broadcast (o : Oracles) (data : InboundData) (msg : OutboundMessage)
    (sl ts : String) :
    ∀ e ∈ (nonBotPersist o data msg sl ts).1, isBroadcastEvent e = false := by
  intro e he
  by_cases h1 : jsStartsWith data.chatId "private_" = true
  · by_cases h2 : 3 ≤ (jsSplit data.chatId '_').length
    · cases h3 : o.ensurePrivateRoom (partAt data.chatId 1) (partAt data.chatId 2) with
      | ok u =>
          rw [nonBotPersist_eq_roomok o data msg sl ts u h1 h2 h3] at he
          rcases List.mem_cons.mp he with rfl | he'
          · rfl
          · exact saveStep_no_broadcast o data msg sl ts e he'
      | error u =>
          rw [nonBotPersist_eq_roomfail o data msg sl ts u h1 h2 h3] at he
          simp at he
          subst he
          rfl
    · rw [nonBotPersist_eq_badformat o data msg sl ts h1 h2] at he
      simp at he
  · rw [nonBotPersist_eq_nonprivate o data msg sl ts (by simpa using h1)] at he
    exact saveStep_no_broadcast o data msg sl ts e he

theorem nonBotPersist_snd (o : Oracles) (data : InboundData) (msg : OutboundMessage)
    (sl ts : String) :
    ∃ i c, (nonBotPersist o data msg sl ts).2 = { msg with id := i, createdAt := c } := by
  by_cases h1 : jsStartsWith data.chatId "private_" = true
  · by_cases h2 : 3 ≤ (jsSplit data.chatId '_').length
    · cases h3 : o.ensurePrivateRoom (partAt data.chatId 1) (partAt data.chatId 2) with
      | ok u =>
          rw [nonBotPersist_eq_roomok o data msg sl ts u h1 h2 h3]
          exact saveStep_snd o data msg sl ts
      | error u =>
          rw [nonBotPersist_eq_roomfail o data msg sl ts u h1 h2 h3]
          exact ⟨msg.id, msg.createdAt, rfl⟩
    · rw [nonBotPersist_eq_badformat o data msg sl ts h1 h2]
      exact ⟨msg.id, msg.createdAt, rfl⟩
  · rw [nonBotPersist_eq_nonprivate o data msg sl ts (by simpa using h1)]
    exact saveStep_snd o data msg sl ts

theorem nonBotTransEvents_no_broadcast (o : Oracles) (tl : List String)
    (data : InboundData) (ul : Option String) (mid : String) :
    ∀ e ∈ nonBotTransEvents o tl data ul mid, isBroadcastEvent e = false := by
  intro e he
  unfold nonBotTransEvents at he
  rcases List.mem_map.mp he with ⟨p, _, rfl⟩
  rfl

theorem nonBotCapEvents_no_broadcast (o : Oracles) (tl : List String)
    (data : InboundData) (ul : Option String) (mid : String) :
    ∀ e ∈ nonBotCapEvents o tl data ul mid, isBroadcastEvent e = false := by
  intro e he
  unfold nonBotCapEvents at he
  split at he
  · split at he
    · simp at he
    · rcases List.mem_map.mp he with ⟨p, _, rfl⟩
      rfl
  · simp at he

theorem nonBotPre_no_broadcast (o : Oracles) (tl : List String) (data : InboundData)
    (uid ul : Option String) (mid ts : String) :
    ∀ e ∈ nonBotPre o tl data uid ul mid ts, isBroadcastEvent e = false := by
  intro e he
  unfold nonBotPre at he
  rcases List.mem_append.mp he with he | he
  · rcases List.mem_append.mp he with he | he
    · exact nonBotTransEvents_no_broadcast o tl data ul mid e he
    · exact nonBotCapEvents_no_broadcast o tl data ul mid e he
  · exact nonBotPersist_no_broadcast o data _ _ ts e he

/-- The final broadcast message differs from the assembled one only in its
id and timestamp: its translations, caption translations, origin language,
sender and room are those assembled before persistence. -/
theorem nonBotMsgFinal_fields (o : Oracles) (tl : List String) (data : InboundData)
    (uid ul : Option String) (mid ts : String) :
    (nonBotMsgFinal o tl data uid ul mid ts).translations =
      (nonBotAssembled o tl data uid ul mid ts).translations ∧
    (nonBotMsgFinal o tl data uid ul mid ts).captionTranslations =
      (nonBotAssembled o tl data uid ul mid ts).captionTranslations ∧
    (nonBotMsgFinal o tl data uid ul mid ts).originalLanguage = jsOrD ul "en" ∧
    (nonBotMsgFinal o tl data uid ul mid ts).senderId = jsOrD uid "unknown" ∧
    (nonBotMsgFinal o tl data uid ul mid ts).chatId = data.chatId := by
  obtain ⟨i, c, h⟩ :=
    nonBotPersist_snd o data (nonBotAssembled o tl data uid ul mid ts) (jsOrD ul "en") ts
  unfold nonBotMsgFinal
  rw [h]
  refine ⟨rfl, rfl, rfl, rfl, rfl⟩

theorem handleNonBot_fst (o : Oracles) (tl : List String) (data : InboundData)
    (uid ul : Option String) (mid ts : String) :
    (handleNonBot o tl data uid ul mid ts).1 =
      nonBotPre o tl data uid ul mid ts ++
        [Event.broadcastRoom data.chatId (nonBotMsgFinal o tl data uid ul mid ts),
         Event.broadcastGlobal (nonBotMsgFinal o tl data uid ul mid ts)] := by
  unfold handleNonBot
  rfl

theorem handleNonBot_snd (o : Oracles) (tl : List String) (data : InboundData)
    (uid ul : Option String) (mid ts : String) :
    (handleNonBot o tl data uid ul mid ts).2 = nonBotMsgFinal o tl data uid ul mid ts := by
  unfold handleNonBot
  rfl

theorem nonBotAssembled_lookup_origin (o : Oracles) (tl : List String) (data : InboundData)
    (uid ul : Option String) (mid ts : String) :
    lookupKey (nonBotAssembled o tl data uid ul mid ts).translations (jsOrD ul "en")
      = some (effectiveText data) := by
  show lookupKey
      (assembleTranslations
        (nonBotTransResults o tl mid (jsOrD ul "en") (effectiveText data))
        (jsOrD ul "en") (effectiveText data)) (jsOrD ul "en") = some (effectiveText data)
  exact assembleTranslations_lookup_origin _ _ _
    (nonBotTransResults_key_ne o tl mid (jsOrD ul "en") (effectiveText data))

theorem mem_nonBotTargets (tl : List String) (sl lang : String)
    (hmem : lang ∈ tl) (hne : lang ≠ sl) : lang ∈ nonBotTargets tl sl := by
  unfold nonBotTargets
  exact List.mem_filter.mpr ⟨hmem, decide_eq_true hne⟩

/-! ### Concrete inputs used by the counterexamples and witnesses -/

/-- An oracle on which every external call fails. -/
def oEnsureFail : Oracles :=
  { provider := fun _ _ => .error (), ensurePrivateRoom := fun _ _ => .error (),
    saveMessage := fun _ _ _ _ _ _ => .error (), saveTranslation := fun _ _ _ => .error (),
    bot := fun _ _ _ _ => .error () }

/-- An oracle on which saves and the bot succeed (translation still fails). -/
def oBotOk : Oracles :=
  { provider := fun _ _ => .error (), ensurePrivateRoom := fun _ _ => .ok (),
    saveMessage := fun _ _ _ _ _ _ => .ok ⟨"row1", "2024-01-01"⟩,
    saveTranslation := fun _ _ _ => .ok (),
    bot := fun _ _ _ _ => .ok "Bot says hi" }

/-- An oracle on which every database save fails but the bot succeeds. -/
def oSaveFail : Oracles :=
  { provider := fun _ _ => .error (), ensurePrivateRoom := fun _ _ => .ok (),
    saveMessage := fun _ _ _ _ _ _ => .error (), saveTranslation := fun _ _ _ => .ok (),
    bot := fun _ _ _ _ => .ok "Bot says hi" }

def dataPriv : InboundData := ⟨"private_u1_u2", "Hello", none, none, none⟩

def dataBot : InboundData := ⟨"babelbot-user42", "Hello", none, none, none⟩

def dataPlain : InboundData := ⟨"room-1", "Hello", none, none, none⟩

/-! ### Claim theorems -/

/-- C2 (counterexample to the claim as stated): in the BabelBot branch the
source initializes `translations: {}` on every message it broadcasts and
never fills it, so the system does broadcast an OutboundMessage whose
translations mapping is empty — here the user's own message and the bot
reply, for a successful save and bot call on room `babelbot-user42`. -/
theorem C2_translations_counterexample :
    (sendMessageHandler oBotOk ["en"] dataBot (some "user42") (some "en")
        "m1" "t1" "b1" "t2" "e1" "t3").any broadcastWithEmptyTranslations = true := by
  rfl

/-- C2 (amended): every OutboundMessage broadcast by the non-bot path has a
translations mapping containing the origin language mapped to the exact
original effective text — whatever the translation oracle does, so in
particular when every translation call fails; both the room broadcast and
the global broadcast carry that message.  (Bot-path messages, by contrast,
are broadcast with an empty translations mapping.) -/
theorem C2_translations_origin_amended (o : Oracles) (tl : List String)
    (data : InboundData) (uid ul : Option String) (mid ts : String) :
    lookupKey (handleNonBot o tl data uid ul mid ts).2.translations (jsOrD ul "en")
        = some (effectiveText data) ∧
    (handleNonBot o tl data uid ul mid ts).2.originalLanguage = jsOrD ul "en" ∧
    Event.broadcastRoom data.chatId (handleNonBot o tl data uid ul mid ts).2
        ∈ (handleNonBot o tl data uid ul mid ts).1 ∧
    Event.broadcastGlobal (handleNonBot o tl data uid ul mid ts).2
        ∈ (handleNonBot o tl data uid ul mid ts).1 := by
  obtain ⟨htr, _, hol, _, _⟩ := nonBotMsgFinal_fields o tl data uid ul mid ts
  refine ⟨?_, ?_, ?_, ?_⟩
  · rw [handleNonBot_snd, htr]
    exact nonBotAssembled_lookup_origin o tl data uid ul mid ts
  · rw [handleNonBot_snd]
    exact hol
  · rw [handleNonBot_fst, handleNonBot_snd]
    exact List.mem_append_right _ (by simp)
  · rw [handleNonBot_fst, handleNonBot_snd]
    exact List.mem_append_right _ (by simp)

/-- C3: for every language of the fetched target-language set the broadcast
translations mapping has an entry, and for a non-origin target language on
which the provider fails for every model, that entry is exactly the
original effective text (the per-language fallback) — the language is never
omitted. -/
theorem C3_target_language_fallback (o : Oracles) (tl : List String)
    (data : InboundData) (uid ul : Option String) (mid ts lang : String)
    (hmem : lang ∈ tl) :
    (lookupKey (handleNonBot o tl data uid ul mid ts).2.translations lang).isSome = true ∧
    (lang ≠ jsOrD ul "en" →
      (∀ m ∈ modelNamesToTry,
          o.provider m (translationPrompt (effectiveText data) (jsOrD ul "en") lang)
            = .error ()) →
      lookupKey (handleNonBot o tl data uid ul mid ts).2.translations lang
        = some (effectiveText data)) := by
  obtain ⟨htr, _, _, _, _⟩ := nonBotMsgFinal_fields o tl data uid ul mid ts
  have hshape :
      (nonBotAssembled o tl data uid ul mid ts).translations =
        assembleTranslations
          (nonBotTransResults o tl mid (jsOrD ul "en") (effectiveText data))
          (jsOrD ul "en") (effectiveText data) := rfl
  constructor
  · rw [handleNonBot_snd, htr, hshape]
    by_cases hsl : lang = jsOrD ul "en"
    · exact assembleTranslations_lookup_isSome _ _ _ _ (Or.inr hsl)
    · refine assembleTranslations_lookup_isSome _ _ _ _ (Or.inl ?_)
      rw [nonBotTransResults_fst]
      exact mem_nonBotTargets tl _ lang hmem hsl
  · intro hsl hfail
    rw [handleNonBot_snd, htr, hshape]
    refine assembleTranslations_lookup_target _ _ _ _ _ ?_ ?_
    · rw [nonBotTransResults_fst]
      exact mem_nonBotTargets tl _ lang hmem hsl
    · exact nonBotTransResults_all_fail o tl mid (jsOrD ul "en") (effectiveText data) lang hfail

/-- C3 witness: with a provider that fails on every call, active languages
`en, he` and an English sender, the broadcast mapping still maps `he` to
the original text. -/
theorem C3_target_language_fallback_witness :
    lookupKey (handleNonBot oEnsureFail ["en", "he"] dataPlain none (some "en")
        "m1" "t1").2.translations "he" = some "Hello" := by
  have h := C3_target_language_fallback oEnsureFail ["en", "he"] dataPlain none
    (some "en") "m1" "t1" "he" (by simp)
  exact h.2 (by decide) (fun m _ => rfl)

/-- C8: for the non-bot path the handler's event trace ends with exactly the
room broadcast followed by the global broadcast; every earlier event (the
per-language translation resolutions, the caption resolutions, the
persistence calls) is not a broadcast; and the broadcast message's
translations mapping is complete — an entry for every fetched target
language and the origin language mapped to the original effective text —
so no partially assembled mapping is ever broadcast. -/
theorem C8_broadcast_after_resolution (o : Oracles) (tl : List String)
    (data : InboundData) (uid ul : Option String) (mid ts : String) :
    (handleNonBot o tl data uid ul mid ts).1 =
      nonBotPre o tl data uid ul mid ts ++
        [Event.broadcastRoom data.chatId (handleNonBot o tl data uid ul mid ts).2,
         Event.broadcastGlobal (handleNonBot o tl data uid ul mid ts).2] ∧
    (∀ e ∈ nonBotPre o tl data uid ul mid ts, isBroadcastEvent e = false) ∧
    (∀ lang ∈ tl,
      (lookupKey (handleNonBot o tl data uid ul mid ts).2.translations lang).isSome = true) ∧
    lookupKey (handleNonBot o tl data uid ul mid ts).2.translations (jsOrD ul "en")
      = some (effectiveText data) := by
  obtain ⟨htr, _, _, _, _⟩ := nonBotMsgFinal_fields o tl data uid ul mid ts
  have hshape :
      (nonBotAssembled o tl data uid ul mid ts).translations =
        assembleTranslations
          (nonBotTransResults o tl mid (jsOrD ul "en") (effectiveText data))
          (jsOrD ul "en") (effectiveText data) := rfl
  refine ⟨rfl, nonBotPre_no_broadcast o tl data uid ul mid ts, ?_, ?_⟩
  · intro lang hmem
    rw [handleNonBot_snd, htr, hshape]
    by_cases hsl : lang = jsOrD ul "en"
    · exact assembleTranslations_lookup_isSome _ _ _ _ (Or.inr hsl)
    · refine assembleTranslations_lookup_isSome _ _ _ _ (Or.inl ?_)
      rw [nonBotTransResults_fst]
      exact mem_nonBotTargets tl _ lang hmem hsl
  · rw [handleNonBot_snd, htr]
    exact nonBotAssembled_lookup_origin o tl data uid ul mid ts

/-- C8 witness: at a concrete message with active languages `en, he`, the
broadcast mapping has an entry for `he`. -/
theorem C8_broadcast_after_resolution_witness :
    (lookupKey (handleNonBot oEnsureFail ["en", "he"] dataPlain none (some "en")
        "m1" "t1").2.translations "he").isSome = true := by
  have h := C8_broadcast_after_resolution oEnsureFail ["en", "he"] dataPlain none
    (some "en") "m1" "t1"
  exact h.2.2.1 "he" (by simp)

/-- C1 (counterexample to the claim as stated): with a failing
`createOrGetPrivateChat` oracle and the private room key `private_u1_u2`,
the handler still emits both the room broadcast and the global broadcast —
the failure is swallowed by the persistence `catch`, so the operation is
not aborted. -/
theorem C1_room_failure_counterexample :
    ((handleNonBot oEnsureFail ["en"] dataPriv none none "m1" "t1").1.filter
        isBroadcastEvent).length = 2 := by
  rfl

/-- C1 (amended): when the room key matches the private-chat pattern and
room materialization fails, the persistence block stops — no message save
and no translation-row save is issued (its only event is the failed room
call) — but the Fan-out Engine does not abort: both the room-scoped
broadcast and the global broadcast are still emitted, carrying the locally
generated id. -/
theorem C1_room_failure_amended (o : Oracles) (tl : List String) (data : InboundData)
    (uid ul : Option String) (mid ts : String) (u : Unit)
    (h1 : jsStartsWith data.chatId "private_" = true)
    (h2 : 3 ≤ (jsSplit data.chatId '_').length)
    (h3 : o.ensurePrivateRoom (partAt data.chatId 1) (partAt data.chatId 2) = .error u) :
    (nonBotPersist o data (nonBotAssembled o tl data uid ul mid ts) (jsOrD ul "en") ts).1 =
      [Event.ensureRoomCall (partAt data.chatId 1) (partAt data.chatId 2) false] ∧
    Event.broadcastRoom data.chatId (handleNonBot o tl data uid ul mid ts).2
      ∈ (handleNonBot o tl data uid ul mid ts).1 ∧
    Event.broadcastGlobal (handleNonBot o tl data uid ul mid ts).2
      ∈ (handleNonBot o tl data uid ul mid ts).1 := by
  refine ⟨?_, ?_, ?_⟩
  · rw [nonBotPersist_eq_roomfail o data _ _ ts u h1 h2 h3]
  · rw [handleNonBot_fst, handleNonBot_snd]
    exact List.mem_append_right _ (by simp)
  · rw [handleNonBot_fst, handleNonBot_snd]
    exact List.mem_append_right _ (by simp)

/-- C1 witness: the amended statement at the concrete failing oracle. -/
theorem C1_room_failure_witness :
    Event.broadcastRoom "private_u1_u2"
        (handleNonBot oEnsureFail ["en"] dataPriv none none "m1" "t1").2
      ∈ (handleNonBot oEnsureFail ["en"] dataPriv none none "m1" "t1").1 := by
  have h := C1_room_failure_amended oEnsureFail ["en"] dataPriv none none "m1" "t1" ()
    (by decide) (by decide) rfl
  exact h.2.1

/-! ### Lemmas about the BabelBot branch -/

theorem botUserPhase_eq_ok (o : Oracles) (data : InboundData) (uid ul : Option String)
    (mid ts : String) (saved : SavedRow)
    (h : botUserSave o data uid ul ts = .ok saved) :
    botUserPhase o data uid ul mid ts =
      [Event.saveMessageCall data.chatId (jsOrD uid "unknown") (effectiveText data) true,
       Event.broadcastRoom data.chatId
         { botUserMsg data uid ul mid ts with id := saved.id, createdAt := saved.created_at },
       Event.broadcastGlobal
         { botUserMsg data uid ul mid ts with id := saved.id, createdAt := saved.created_at }] := by
  unfold botUserPhase
  rw [h]

theorem botUserPhase_eq_error (o : Oracles) (data : InboundData) (uid ul : Option String)
    (mid ts : String) (u : Unit)
    (h : botUserSave o data uid ul ts = .error u) :
    botUserPhase o data uid ul mid ts =
      [Event.saveMessageCall data.chatId (jsOrD uid "unknown") (effectiveText data) false] := by
  unfold botUserPhase
  rw [h]

theorem sendMessageHandler_bot (o : Oracles) (tl : List String) (data : InboundData)
    (uid ul : Option String) (mid ts bmid bts emid ets : String)
    (hbot : jsStartsWith data.chatId "babelbot-" = true) :
    sendMessageHandler o tl data uid ul mid ts bmid bts emid ets =
      handleBot o data uid ul mid ts bmid bts emid ets := by
  unfold sendMessageHandler
  simp [hbot]

theorem roomBroadcastSenders_append (l1 l2 : List Event) :
    roomBroadcastSenders (l1 ++ l2) = roomBroadcastSenders l1 ++ roomBroadcastSenders l2 := by
  unfold roomBroadcastSenders
  exact List.filterMap_append l1 l2 _

theorem globalBroadcastSenders_append (l1 l2 : List Event) :
    globalBroadcastSenders (l1 ++ l2) = globalBroadcastSenders l1 ++ globalBroadcastSenders l2 := by
  unfold globalBroadcastSenders
  exact List.filterMap_append l1 l2 _

theorem roomBroadcastContents_append (l1 l2 : List Event) :
    roomBroadcastContents (l1 ++ l2) = roomBroadcastContents l1 ++ roomBroadcastContents l2 := by
  unfold roomBroadcastContents
  exact List.filterMap_append l1 l2 _

theorem translationEventsOf_append (l1 l2 : List Event) :
    translationEventsOf (l1 ++ l2) = translationEventsOf l1 ++ translationEventsOf l2 := by
  unfold translationEventsOf
  rw [List.filter_append]

theorem roomSenders_botReplyPhase (o : Oracles) (data : InboundData)
    (uid ul : Option String) (bmid bts emid ets : String) :
    roomBroadcastSenders (botReplyPhase o data uid ul bmid bts emid ets) = ["babelbot"] := by
  unfold botReplyPhase
  split
  · split
    · rfl
    · rfl
  · rfl

theorem globalSenders_botReplyPhase (o : Oracles) (data : InboundData)
    (uid ul : Option String) (bmid bts emid ets : String) :
    globalBroadcastSenders (botReplyPhase o data uid ul bmid bts emid ets) = ["babelbot"] := by
  unfold botReplyPhase
  split
  · split
    · rfl
    · rfl
  · rfl

theorem contents_botReplyPhase_error (o : Oracles) (data : InboundData)
    (uid ul : Option String) (bmid bts emid ets : String) (u : Unit)
    (h : o.bot (botText data) (jsOrD uid "unknown") data.chatId (botUserLang data ul)
          = .error u) :
    roomBroadcastContents (botReplyPhase o data uid ul bmid bts emid ets)
      = [apologyText] := by
  unfold botReplyPhase
  rw [h]
  rfl

theorem translationEventsOf_botUserPhase (o : Oracles) (data : InboundData)
    (uid ul : Option String) (mid ts : String) :
    translationEventsOf (botUserPhase o data uid ul mid ts) = [] := by
  unfold botUserPhase
  split
  · rfl
  · rfl

theorem translationEventsOf_botReplyPhase (o : Oracles) (data : InboundData)
    (uid ul : Option String) (bmid bts emid ets : String) :
    translationEventsOf (botReplyPhase o data uid ul bmid bts emid ets) = [] := by
  unfold botReplyPhase
  split
  · split
    · rfl
    · rfl
  · rfl

theorem translationEventsOf_handleBot (o : Oracles) (data : InboundData)
    (uid ul : Option String) (mid ts bmid bts emid ets : String) :
    translationEventsOf (handleBot o data uid ul mid ts bmid bts emid ets) = [] := by
  unfold handleBot
  rw [translationEventsOf_append]
  rw [translationEventsOf_botUserPhase]
  have : translationEventsOf
      (Event.botCall (botText data) (jsOrD uid "unknown") data.chatId (botUserLang data ul)
        :: botReplyPhase o data uid ul bmid bts emid ets)
      = translationEventsOf (botReplyPhase o data uid ul bmid bts emid ets) := by
    unfold translationEventsOf
    rw [List.filter_cons]
    simp
  rw [this, translationEventsOf_botReplyPhase]
  rfl

theorem handleBot_room_translations_empty (o : Oracles) (data : InboundData)
    (uid ul : Option String) (mid ts bmid bts emid ets : String) :
    ∀ room m, Event.broadcastRoom room m ∈ handleBot o data uid ul mid ts bmid bts emid ets →
      m.translations = [] := by
  intro room m hm
  unfold handleBot at hm
  rcases List.mem_append.mp hm with hm | hm
  · unfold botUserPhase at hm
    split at hm
    · simp only [List.mem_cons, List.not_mem_nil, or_false] at hm
      rcases hm with hm | hm | hm
      · exact absurd hm (by simp)
      · rw [(Event.broadcastRoom.injEq _ _ _ _).mp hm |>.2]
        rfl
      · exact absurd hm (by simp)
    · simp only [List.mem_cons, List.not_mem_nil, or_false] at hm
      exact absurd hm (by simp)
  · rcases List.mem_cons.mp hm with hm | hm
    · exact absurd hm (by simp)
    · unfold botReplyPhase at hm
      split at hm
      · split at hm
        · simp only [List.mem_cons, List.not_mem_nil, or_false] at hm
          rcases hm with hm | hm | hm
          · exact absurd hm (by simp)
          · rw [(Event.broadcastRoom.injEq _ _ _ _).mp hm |>.2]
            rfl
          · exact absurd hm (by simp)
        · simp only [List.mem_cons, List.not_mem_nil, or_false] at hm
          rcases hm with hm | hm | hm
          · exact absurd hm (by simp)
          · rw [(Event.broadcastRoom.injEq _ _ _ _).mp hm |>.2]
            rfl
          · exact absurd hm (by simp)
      · simp only [List.mem_cons, List.not_mem_nil, or_false] at hm
        rcases hm with hm | hm
        · rw [(Event.broadcastRoom.injEq _ _ _ _).mp hm |>.2]
          rfl
        · exact absurd hm (by simp)

theorem roomSenders_botUserPhase_ok (o : Oracles) (data : InboundData)
    (uid ul : Option String) (mid ts : String) (saved : SavedRow)
    (h : botUserSave o data uid ul ts = .ok saved) :
    roomBroadcastSenders (botUserPhase o data uid ul mid ts) = [jsOrD uid "unknown"] := by
  rw [botUserPhase_eq_ok o data uid ul mid ts saved h]
  rfl

theorem roomSenders_botUserPhase_error (o : Oracles) (data : InboundData)
    (uid ul : Option String) (mid ts : String) (u : Unit)
    (h : botUserSave o data uid ul ts = .error u) :
    roomBroadcastSenders (botUserPhase o data uid ul mid ts) = [] := by
  rw [botUserPhase_eq_error o data uid ul mid ts u h]
  rfl

theorem globalSenders_botUserPhase_error (o : Oracles) (data : InboundData)
    (uid ul : Option String) (mid ts : String) (u : Unit)
    (h : botUserSave o data uid ul ts = .error u) :
    globalBroadcastSenders (botUserPhase o data uid ul mid ts) = [] := by
  rw [botUserPhase_eq_error o data uid ul mid ts u h]
  rfl

theorem contents_botUserPhase_ok (o : Oracles) (data : InboundData)
    (uid ul : Option String) (mid ts : String) (saved : SavedRow)
    (h : botUserSave o data uid ul ts = .ok saved) :
    roomBroadcastContents (botUserPhase o data uid ul mid ts) = [data.content] := by
  rw [botUserPhase_eq_ok o data uid ul mid ts saved h]
  rfl

theorem botCall_mem_handleBot (o : Oracles) (data : InboundData)
    (uid ul : Option String) (mid ts bmid bts emid ets : String) :
    Event.botCall (botText data) (jsOrD uid "unknown") data.chatId (botUserLang data ul)
      ∈ handleBot o data uid ul mid ts bmid bts emid ets := by
  unfold handleBot
  exact List.mem_append_right _ (List.mem_cons_self _ _)

/-- C6 (counterexample to the claim as stated): on room `babelbot-user42`
with a failing `createMessage` oracle and a working bot, only ONE message is
broadcast to the room — the bot reply — because the user-message broadcast
sits inside the `try` whose save failed; so the claimed unconditional
"two messages in sequence, the user's first" is false. -/
theorem C6_bot_sequence_counterexample :
    roomBroadcastSenders (sendMessageHandler oSaveFail ["en"] dataBot (some "user42")
      (some "en") "m1" "t1" "b1" "t2" "e1" "t3") = ["babelbot"] := by
  rfl

/-- C6 (amended): for a room key in the `babelbot-` namespace no translation
is ever computed (the trace has no translation events and every broadcast
message carries an empty translations mapping), and PROVIDED the save of
the user's message succeeds, exactly two messages are broadcast to the room
in sequence: the user's message first, then one attributed to the fixed bot
sender id `babelbot`; when the bot call fails that second broadcast is the
fixed apology message. -/
theorem C6_bot_sequence_amended (o : Oracles) (tl : List String) (data : InboundData)
    (uid ul : Option String) (mid ts bmid bts emid ets : String) (saved : SavedRow)
    (hbot : jsStartsWith data.chatId "babelbot-" = true)
    (hsave : botUserSave o data uid ul ts = .ok saved) :
    translationEventsOf (sendMessageHandler o tl data uid ul mid ts bmid bts emid ets) = [] ∧
    (∀ room m, Event.broadcastRoom room m
        ∈ sendMessageHandler o tl data uid ul mid ts bmid bts emid ets →
      m.translations = []) ∧
    roomBroadcastSenders (sendMessageHandler o tl data uid ul mid ts bmid bts emid ets)
      = [jsOrD uid "unknown", "babelbot"] ∧
    (∀ u : Unit,
      o.bot (botText data) (jsOrD uid "unknown") data.chatId (botUserLang data ul)
          = .error u →
      roomBroadcastContents (sendMessageHandler o tl data uid ul mid ts bmid bts emid ets)
        = [data.content, apologyText]) := by
  rw [sendMessageHandler_bot o tl data uid ul mid ts bmid bts emid ets hbot]
  refine ⟨translationEventsOf_handleBot o data uid ul mid ts bmid bts emid ets,
    handleBot_room_translations_empty o data uid ul mid ts bmid bts emid ets, ?_, ?_⟩
  · unfold handleBot
    rw [roomBroadcastSenders_append,
      roomSenders_botUserPhase_ok o data uid ul mid ts saved hsave]
    have : roomBroadcastSenders
        (Event.botCall (botText data) (jsOrD uid "unknown") data.chatId (botUserLang data ul)
          :: botReplyPhase o data uid ul bmid bts emid ets)
        = roomBroadcastSenders (botReplyPhase o data uid ul bmid bts emid ets) := rfl
    rw [this, roomSenders_botReplyPhase o data uid ul bmid bts emid ets]
    rfl
  · intro u hbotfail
    unfold handleBot
    rw [roomBroadcastContents_append,
      contents_botUserPhase_ok o data uid ul mid ts saved hsave]
    have : roomBroadcastContents
        (Event.botCall (botText data) (jsOrD uid "unknown") data.chatId (botUserLang data ul)
          :: botReplyPhase o data uid ul bmid bts emid ets)
        = roomBroadcastContents (botReplyPhase o data uid ul bmid bts emid ets) := rfl
    rw [this, contents_botReplyPhase_error o data uid ul bmid bts emid ets u hbotfail]
    rfl

/-- C6 witness: two room broadcasts, user first then the bot id, at a
concrete successful run. -/
theorem C6_bot_sequence_witness :
    roomBroadcastSenders (sendMessageHandler oBotOk ["en"] dataBot (some "user42")
      (some "en") "m1" "t1" "b1" "t2" "e1" "t3") = ["user42", "babelbot"] := by
  have h := C6_bot_sequence_amended oBotOk ["en"] dataBot (some "user42") (some "en")
    "m1" "t1" "b1" "t2" "e1" "t3" ⟨"row1", "2024-01-01"⟩ (by rfl) (by rfl)
  exact h.2.2.1

/-- C10: in the BabelBot branch, when the save of the user's message fails,
the user message is broadcast neither to the room nor to the global feed
(every broadcast of the operation carries the bot sender id), yet the bot
service is still invoked and its reply — or the apology — is still
broadcast: the user-first sequence is missing its first element. -/
theorem C10_user_save_failure (o : Oracles) (tl : List String) (data : InboundData)
    (uid ul : Option String) (mid ts bmid bts emid ets : String) (u : Unit)
    (hbot : jsStartsWith data.chatId "babelbot-" = true)
    (hfail : botUserSave o data uid ul ts = .error u) :
    roomBroadcastSenders (sendMessageHandler o tl data uid ul mid ts bmid bts emid ets)
      = ["babelbot"] ∧
    globalBroadcastSenders (sendMessageHandler o tl data uid ul mid ts bmid bts emid ets)
      = ["babelbot"] ∧
    Event.botCall (botText data) (jsOrD uid "unknown") data.chatId (botUserLang data ul)
      ∈ sendMessageHandler o tl data uid ul mid ts bmid bts emid ets := by
  rw [sendMessageHandler_bot o tl data uid ul mid ts bmid bts emid ets hbot]
  refine ⟨?_, ?_, botCall_mem_handleBot o data uid ul mid ts bmid bts emid ets⟩
  · unfold handleBot
    rw [roomBroadcastSenders_append,
      roomSenders_botUserPhase_error o data uid ul mid ts u hfail]
    have : roomBroadcastSenders
        (Event.botCall (botText data) (jsOrD uid "unknown") data.chatId (botUserLang data ul)
          :: botReplyPhase o data uid ul bmid bts emid ets)
        = roomBroadcastSenders (botReplyPhase o data uid ul bmid bts emid ets) := rfl
    rw [this, roomSenders_botReplyPhase o data uid ul bmid bts emid ets]
    rfl
  · unfold handleBot
    rw [globalBroadcastSenders_append,
      globalSenders_botUserPhase_error o data uid ul mid ts u hfail]
    have : globalBroadcastSenders
        (Event.botCall (botText data) (jsOrD uid "unknown") data.chatId (botUserLang data ul)
          :: botReplyPhase o data uid ul bmid bts emid ets)
        = globalBroadcastSenders (botReplyPhase o data uid ul bmid bts emid ets) := rfl
    rw [this, globalSenders_botReplyPhase o data uid ul bmid bts emid ets]
    rfl

/-- C10 witness: the failing-save run still contains the bot call. -/
theorem C10_user_save_failure_witness :
    globalBroadcastSenders (sendMessageHandler oSaveFail ["en"] dataBot (some "user42")
      (some "en") "m1" "t1" "b1" "t2" "e1" "t3") = ["babelbot"] := by
  have h := C10_user_save_failure oSaveFail ["en"] dataBot (some "user42") (some "en")
    "m1" "t1" "b1" "t2" "e1" "t3" () (by rfl) (by rfl)
  exact h.2.1

/-! ### Remaining claims: cache, private room key, detector, adapter -/

/-- C4: when the TTL has expired and the refresh query fails, `get()`
returns the previously cached set unchanged (state included) and that set
is non-empty; moreover every transition of the cache preserves
non-emptiness of both the returned set and the stored set, so the
previously cached set is non-empty in every reachable state.  The embedding
is a total function — the query failure is consumed by the `catch`, never
re-raised to the caller. -/
theorem C4_language_cache (st : LangCacheState) (now : Nat)
    (hne : st.cachedTargetLanguages ≠ [])
    (hexp : now - st.lastLanguageCacheUpdate > LANGUAGE_CACHE_TTL) :
    getTargetLanguages st now (.error ()) = (st.cachedTargetLanguages, st) ∧
    (getTargetLanguages st now (.error ())).1 ≠ [] ∧
    (∀ now2 q, (getTargetLanguages st now2 q).1 ≠ [] ∧
      (getTargetLanguages st now2 q).2.cachedTargetLanguages ≠ []) := by
  have hmain : getTargetLanguages st now (.error ()) = (st.cachedTargetLanguages, st) := by
    unfold getTargetLanguages
    simp [hexp]
  refine ⟨hmain, by rw [hmain]; exact hne, ?_⟩
  intro now2 q
  cases q with
  | error u =>
      unfold getTargetLanguages
      by_cases h : now2 - st.lastLanguageCacheUpdate > LANGUAGE_CACHE_TTL
      · simp [h, hne]
      · simp [h, hne]
  | ok languages =>
      unfold getTargetLanguages
      by_cases h : now2 - st.lastLanguageCacheUpdate > LANGUAGE_CACHE_TTL
      · by_cases hen : "en" ∈ jsSetDedup languages
        · simp only [h, if_true, hen, if_pos]
          exact ⟨List.ne_nil_of_mem hen, List.ne_nil_of_mem hen⟩
        · simp [h, hen]
      · simp [h, hne]

/-- C4 witness: expired cache, failing query, previous set returned. -/
theorem C4_language_cache_witness :
    getTargetLanguages ⟨["en", "he"], 0⟩ 300001 (Except.error ())
      = (["en", "he"], ⟨["en", "he"], 0⟩) :=
  (C4_language_cache ⟨["en", "he"], 0⟩ 300001 (by decide) (by decide)).1

theorem createOrGetPrivateChat_key (A B : String) :
    (if A ≤ B then A else B) = min A B ∧ (if A ≤ B then B else A) = max A B := by
  by_cases h : A ≤ B
  · simp [h, min_eq_left h, max_eq_right h]
  · have h' : B ≤ A := le_of_not_le h
    simp [h, min_eq_right h', max_eq_left h']

theorem createOrGetPrivateChat_fst_raw (db : ChatDB) (A B : String) :
    (createOrGetPrivateChat db A B).1
      = "private_" ++ (if A ≤ B then A else B) ++ "_" ++ (if A ≤ B then B else A) := by
  simp only [createOrGetPrivateChat]
  split <;> split <;> rfl

theorem createOrGetPrivateChat_fst (db : ChatDB) (A B : String) :
    (createOrGetPrivateChat db A B).1 = "private_" ++ min A B ++ "_" ++ max A B := by
  obtain ⟨h1, h2⟩ := createOrGetPrivateChat_key A B
  rw [createOrGetPrivateChat_fst_raw, h1, h2]

theorem createOrGetPrivateChat_mem (db : ChatDB) (A B : String) :
    (createOrGetPrivateChat db A B).1 ∈ (createOrGetPrivateChat db A B).2.1.chats := by
  simp only [createOrGetPrivateChat]
  split <;> split <;> simp_all

theorem createOrGetPrivateChat_of_mem (db : ChatDB) (A B : String)
    (h : "private_" ++ (if A ≤ B then A else B) ++ "_" ++ (if A ≤ B then B else A)
          ∈ db.chats) :
    createOrGetPrivateChat db A B =
      ("private_" ++ (if A ≤ B then A else B) ++ "_" ++ (if A ≤ B then B else A),
       db, false) := by
  simp only [createOrGetPrivateChat]
  rw [if_pos h]

/-- C5: the key returned by `createOrGetPrivateChat` is
`private_{min(A,B)}_{max(A,B)}` (the two user ids in sorted order); a second
call with the same users returns the same key, inserts nothing (`created`
flag false, database unchanged), and swapping the two arguments yields the
same key. -/
theorem C5_private_room_idempotent (db : ChatDB) (A B : String) :
    (createOrGetPrivateChat db A B).1 = "private_" ++ min A B ++ "_" ++ max A B ∧
    (createOrGetPrivateChat (createOrGetPrivateChat db A B).2.1 A B).1
      = (createOrGetPrivateChat db A B).1 ∧
    (createOrGetPrivateChat (createOrGetPrivateChat db A B).2.1 A B).2.2 = false ∧
    (createOrGetPrivateChat (createOrGetPrivateChat db A B).2.1 A B).2.1
      = (createOrGetPrivateChat db A B).2.1 ∧
    (createOrGetPrivateChat db B A).1 = (createOrGetPrivateChat db A B).1 := by
  have hmem := createOrGetPrivateChat_mem db A B
  rw [createOrGetPrivateChat_fst_raw db A B] at hmem
  have hsecond := createOrGetPrivateChat_of_mem (createOrGetPrivateChat db A B).2.1 A B hmem
  refine ⟨createOrGetPrivateChat_fst db A B, ?_, ?_, ?_, ?_⟩
  · rw [hsecond, createOrGetPrivateChat_fst_raw db A B]
  · rw [hsecond]
  · rw [hsecond]
  · rw [createOrGetPrivateChat_fst db B A, createOrGetPrivateChat_fst db A B,
      min_comm, max_comm]

theorem isBlank_false_of_containsRange (lo hi : Nat) (t : String) (hlo : 256 ≤ lo)
    (h : containsRange lo hi t = true) : isBlank t = false := by
  unfold containsRange at h
  rw [List.any_eq_true] at h
  obtain ⟨c, hc, hrange⟩ := h
  rw [decide_eq_true_iff] at hrange
  unfold isBlank
  by_contra hb
  rw [Bool.not_eq_false, List.all_eq_true] at hb
  have hw := hb c hc
  have hcases : c = ' ' ∨ c = '\t' ∨ c = '\r' ∨ c = '\n' := by
    simpa [Char.isWhitespace, or_assoc] using hw
  have hlt : c.toNat < 256 := by
    rcases hcases with rfl | rfl | rfl | rfl <;> decide
  have hle := hrange.1
  omega

/-- C7: the Language Detector is a total function on strings (the Lean
embedding is a plain function, hence pure and deterministic); blank text
maps to the fallback `en`; the script ranges are inspected in the fixed
priority order Hebrew, Arabic, Chinese, Cyrillic, the first range with a
character in the text deciding the result; with no match the fallback `en`
is returned. -/
theorem C7_language_detector (t : String) :
    (isBlank t = true → detectLanguageFromText t = "en") ∧
    (containsRange 0x0590 0x05FF t = true → detectLanguageFromText t = "he") ∧
    (containsRange 0x0590 0x05FF t = false → containsRange 0x0600 0x06FF t = true →
      detectLanguageFromText t = "ar") ∧
    (containsRange 0x0590 0x05FF t = false → containsRange 0x0600 0x06FF t = false →
      containsRange 0x4E00 0x9FFF t = true → detectLanguageFromText t = "zh") ∧
    (containsRange 0x0590 0x05FF t = false → containsRange 0x0600 0x06FF t = false →
      containsRange 0x4E00 0x9FFF t = false → containsRange 0x0400 0x04FF t = true →
      detectLanguageFromText t = "ru") ∧
    (containsRange 0x0590 0x05FF t = false → containsRange 0x0600 0x06FF t = false →
      containsRange 0x4E00 0x9FFF t = false → containsRange 0x0400 0x04FF t = false →
      detectLanguageFromText t = "en") := by
  refine ⟨?_, ?_, ?_, ?_, ?_, ?_⟩
  · intro hb
    unfold detectLanguageFromText
    simp [hb]
  · intro hhe
    have hb := isBlank_false_of_containsRange 0x0590 0x05FF t (by norm_num) hhe
    unfold detectLanguageFromText
    simp [hb, hhe]
  · intro hhe har
    have hb := isBlank_false_of_containsRange 0x0600 0x06FF t (by norm_num) har
    unfold detectLanguageFromText
    simp [hb, hhe, har]
  · intro hhe har hzh
    have hb := isBlank_false_of_containsRange 0x4E00 0x9FFF t (by norm_num) hzh
    unfold detectLanguageFromText
    simp [hb, hhe, har, hzh]
  · intro hhe har hzh hru
    have hb := isBlank_false_of_containsRange 0x0400 0x04FF t (by norm_num) hru
    unfold detectLanguageFromText
    simp [hb, hhe, har, hzh, hru]
  · intro hhe har hzh hru
    unfold detectLanguageFromText
    by_cases hb : isBlank t
    · simp [hb]
    · simp [hb, hhe, har, hzh, hru]

/-- C7 witness: blank text, a Hebrew text, and a Latin text, each through
the corresponding branch of the detector theorem. -/
theorem C7_language_detector_witness :
    detectLanguageFromText "" = "en" ∧ detectLanguageFromText "שלום" = "he" ∧
      detectLanguageFromText "hello" = "en" := by
  refine ⟨(C7_language_detector "").1 (by decide),
    (C7_language_detector "שלום").2.1 (by decide), ?_⟩
  exact (C7_language_detector "hello").2.2.2.2.2 (by decide) (by decide) (by decide)
    (by decide)

/-- C9 (counterexample to the claim as stated): on a provider that errors on
every call — error, timeout and malformed response all surface as a
rejected provider promise — the adapter does not raise a failure to its
caller: it returns the original content as a successful value. -/
theorem C9_translate_counterexample :
    translateMessage (fun _ _ => .error ()) "m1" "he" "Hello" "en" = .ok "Hello" := by
  rfl

/-- C9 (amended): `translateMessage` returns the translated text on
success, and on a provider error it retries the remaining models; if every
model fails it returns the original content unchanged as an ordinary value
— it never raises a failure to its caller. -/
theorem C9_translate_amended (provider : String → String → Except Unit String)
    (mid tgt txt src : String) :
    (∃ s, translateMessage provider mid tgt txt src = .ok s) ∧
    ((∀ m ∈ modelNamesToTry, provider m (translationPrompt txt src tgt) = .error ()) →
      translateMessage provider mid tgt txt src = .ok txt) := by
  constructor
  · exact tryModels_never_errors provider _ txt modelNamesToTry
  · intro h
    exact translateMessage_all_fail provider mid tgt txt src h

/-- C9 witness: the amended statement at a concrete failing provider. -/
theorem C9_translate_amended_witness :
    translateMessage (fun _ _ => .error ()) "m2" "en" "Shalom" "he" = .ok "Shalom" :=
  (C9_translate_amended (fun _ _ => .error ()) "m2" "en" "Shalom" "he").2 (fun _ _ => rfl)

end BabelApp
